import Mathlib

/-!
Verification development for the SlimFlix client-side scripts.

The repository consists of two small JavaScript files:
  - static/js/scripts.js : Alpine.js data functions jackettSearch,
    availableMedia and recentMedia, each issuing one fetch and updating
    a private result list on settlement;
  - a second script (custom JS) : collapsible season toggles and the
    admin settings form handler saveSettings.

We embed the code shallowly: decoded JSON bodies become an inductive
Json value with JavaScript truthiness, each promise chain becomes a pure
function from the pre-dispatch state and the settlement outcome of the
single request to the final state together with the list of requests
issued, the number of console.error calls, and the number of times the
finally callback ran.
-/

set_option autoImplicit false

/-- Decoded JSON values, as produced by response.json(). JSON.parse never
produces undefined, so null is the only non-object, non-primitive case. -/
inductive Json where
  | null : Json
  | bool (b : Bool) : Json
  | num (n : Int) : Json
  | str (s : String) : Json
  | arr (elems : List Json) : Json
  | obj (fields : List (String × Json)) : Json

/-- First-match lookup of a field in an object field list (the field list
is the post-parse representation of the object, keys assumed distinct). -/
def lookupField : List (String × Json) → String → Option Json
  | [], _ => none
  | (k, v) :: rest, key => if k = key then some v else lookupField rest key

/-- Property access data.k on a decoded JSON value other than null:
objects yield the field when present, everything else yields undefined
(modelled as none). Access on null throws and is handled separately by
the callers that can receive null. -/
def Json.getField : Json → String → Option Json
  | Json.obj fields, k => lookupField fields k
  | _, _ => none

/-- JavaScript truthiness of a decoded JSON value: null, false, 0 and the
empty string are falsy; arrays and objects are always truthy. -/
def Json.truthy : Json → Bool
  | Json.null => false
  | Json.bool b => b
  | Json.num n => n != 0
  | Json.str s => s != ""
  | Json.arr _ => true
  | Json.obj _ => true

/-- Truthiness of a possibly-undefined value: undefined is falsy. -/
def jsTruthy : Option Json → Bool
  | none => false
  | some j => j.truthy

mutual
/-- JavaScript string conversion of a decoded JSON value, as performed by
template-literal interpolation. -/
def Json.jsToString : Json → String
  | Json.null => "null"
  | Json.bool b => cond b "true" "false"
  | Json.num n => toString n
  | Json.str s => s
  | Json.arr xs => jsArrToString xs
  | Json.obj _ => "[object Object]"

/-- Array.prototype.toString: elements joined by commas, null rendered
as the empty string. -/
def jsArrToString : List Json → String
  | [] => ""
  | [Json.null] => ""
  | [x] => x.jsToString
  | Json.null :: xs => "," ++ jsArrToString xs
  | x :: xs => x.jsToString ++ "," ++ jsArrToString xs
end

/-- Interpolation of a possibly-undefined value, as in a template
literal: a missing property renders as the string undefined. -/
def jsInterpolate : Option Json → String
  | none => "undefined"
  | some j => j.jsToString

/-- One network request as issued by fetch: URL, method, and the
key-value payload (form fields for FormData, JSON object fields for a
JSON body; empty for a plain GET). -/
structure Request where
  url : String
  method : String
  payload : List (String × String)
deriving DecidableEq

/-- Settlement outcome of one fetch().then(res => res.json()) prefix:
either the body decoded successfully, or the fetch rejected or the
decoding rejected (transport or decoding failure). -/
inductive FetchOutcome where
  | decoded (body : Json) : FetchOutcome
  | failed : FetchOutcome

/-- String.prototype.trim: strip leading and trailing whitespace.
Modelled on the character list (JavaScript trims a slightly larger
Unicode whitespace set; the common ASCII whitespace is covered). -/
def jsTrim (s : String) : String :=
  ⟨((s.data.dropWhile Char.isWhitespace).reverse.dropWhile
      Char.isWhitespace).reverse⟩

/-- State of the jackettSearch widget: the object literal
query, results, loading, searched of scripts.js line 22. -/
structure SearchState where
  query : String
  results : Json
  loading : Bool
  searched : Bool

/-- Initial jackettSearch data object. -/
def jackettSearchData : SearchState :=
  { query := "", results := Json.arr [], loading := false, searched := false }

/-- Synchronous prefix of search() on the long-query path, up to and
including the dispatch of the fetch: loading and searched are set true. -/
def searchDispatch (s : SearchState) : SearchState :=
  { s with loading := true, searched := true }

/-- The success handler data => this.results = data.error ? [] : data.
Property access on a null body throws a TypeError, which the following
catch receives; this is the error branch. -/
def resultsHandler (data : Json) : Except Unit Json :=
  match data with
  | Json.null => Except.error ()
  | _ => Except.ok (if jsTruthy (data.getField "error") then Json.arr [] else data)

/-- Settlement of the shared promise chain
then(data => this.results = data.error ? [] : data)
.catch(err => console.error(...)).finally(() => this.loading = false)
used identically by all three widgets: returns the new results (none
when the error path left them untouched) together with the number of
console.error calls and the number of finally runs. -/
def chainSettle (o : FetchOutcome) : Option Json × Nat × Nat :=
  match o with
  | FetchOutcome.failed => (none, 1, 1)
  | FetchOutcome.decoded body =>
    match resultsHandler body with
    | Except.error _ => (none, 1, 1)
    | Except.ok r => (some r, 0, 1)

/-- Result of one complete run of a widget request: final state,
requests issued, console.error count, finally-callback run count. -/
structure SearchRun where
  state : SearchState
  requests : List Request
  logs : Nat
  finalizers : Nat

/-- The search() method of jackettSearch (scripts.js lines 23-33),
parameterized by the settlement outcome of the request it issues; the
outcome is irrelevant on the short-query path, which issues none. -/
def search (s : SearchState) (o : FetchOutcome) : SearchRun :=
  if (jsTrim s.query).length < 3 then
    { state := { s with results := Json.arr [], searched := false },
      requests := [], logs := 0, finalizers := 0 }
  else
    let s1 := searchDispatch s
    let req : Request :=
      { url := "/search_jackett", method := "POST",
        payload := [("query", s.query), ("media_type", "all")] }
    let (r, logs, fin) := chainSettle o
    { state := { s1 with results := r.getD s1.results, loading := false },
      requests := [req], logs := logs, finalizers := fin }

/-- State of a list widget (availableMedia or recentMedia): the object
literal results, loading of scripts.js lines 40 and 53. -/
structure ListState where
  results : Json
  loading : Bool

/-- Result of one run of a list widget init. -/
structure ListRun where
  state : ListState
  requests : List Request
  logs : Nat
  finalizers : Nat

/-- Initial availableMedia data object: results empty, loading already
true before init runs. -/
def availableMediaData : ListState :=
  { results := Json.arr [], loading := true }

/-- Initial recentMedia data object. -/
def recentMediaData : ListState :=
  { results := Json.arr [], loading := true }

/-- Settlement of a list widget request: identical promise chain to
search(), acting on a ListState. -/
def listSettle (s : ListState) (o : FetchOutcome) : ListState × Nat × Nat :=
  let (r, logs, fin) := chainSettle o
  ({ results := r.getD s.results, loading := false }, logs, fin)

/-- The init() method of availableMedia (scripts.js lines 41-46): one
GET to /jackett_available/mediaType?limit=limit, then the shared chain.
The limit parameter is interpolated into the URL, so we take its string
form. -/
def availableMediaInit (mediaType limit : String) (s : ListState)
    (o : FetchOutcome) : ListRun :=
  let req : Request :=
    { url := "/jackett_available/" ++ mediaType ++ "?limit=" ++ limit,
      method := "GET", payload := [] }
  let (s1, logs, fin) := listSettle s o
  { state := s1, requests := [req], logs := logs, finalizers := fin }

/-- The init() method of recentMedia (scripts.js lines 54-59): one GET
to /jackett_recent/mediaType, then the shared chain. -/
def recentMediaInit (mediaType : String) (s : ListState)
    (o : FetchOutcome) : ListRun :=
  let req : Request :=
    { url := "/jackett_recent/" ++ mediaType, method := "GET", payload := [] }
  let (s1, logs, fin) := listSettle s o
  { state := s1, requests := [req], logs := logs, finalizers := fin }

/-!
Season toggles. The DOM fragment the handler touches is modelled as an
association list from selector to the inline style.display value of the
element the selector matches, in document order; querySelector returns
the first match and the handler mutates only the display of that
element.
-/

/-- The document fragment: selector paired with inline display value of
each element, in document order. -/
abbrev Doc := List (String × String)

/-- document.querySelector restricted to this model: display value of
the first element matched by the selector, none when no element
matches. -/
def querySelector : Doc → String → Option String
  | [], _ => none
  | (sel, d) :: rest, t => if sel = t then some d else querySelector rest t

/-- Write a new inline display value on the first element the selector
matches, leaving every other element unchanged. -/
def setDisplay : Doc → String → String → Doc
  | [], _, _ => []
  | (sel, d) :: rest, t, v =>
    if sel = t then (sel, v) :: rest else (sel, d) :: setDisplay rest t v

/-- The branch on targetElement.style.display: display none becomes
block, any other value (including the empty string of an untouched
inline style) becomes none. -/
def toggleDisplay (d : String) : String :=
  if d = "none" then "block" else "none"

/-- The season-toggle click handler: look up the data-target selector;
when no element matches, do nothing; otherwise toggle the display of
the matched element. -/
def clickToggle (doc : Doc) (dataTarget : String) : Doc :=
  match querySelector doc dataTarget with
  | none => doc
  | some d => setDisplay doc dataTarget (toggleDisplay d)

/-- Hidden status of the element a selector matches, under the inline
style model: hidden exactly when the inline display value is none. -/
def hiddenAt (doc : Doc) (t : String) : Option Bool :=
  (querySelector doc t).map (fun d => d = "none")

/-!
Admin settings form. The saveSettings function manipulates the submit
button and the settings-notifications area, issues one POST, and
schedules one clearing timer in its finally block. Overlapping
submissions interleave the same atomic steps, so the page is modelled
with a step function over dispatch, settlement and timer-fire events.
-/

/-- The submit button of the form being saved. -/
structure ButtonState where
  textContent : String
  disabled : Bool

/-- The part of the page saveSettings mutates: the submit button and the
innerHTML of the settings-notifications area. -/
structure PageState where
  button : ButtonState
  area : String

/-- The notification markup template of saveSettings:
div class alert + alertClass, role alert, containing the message. -/
def bannerDiv (alertClass message : String) : String :=
  "<div class=\"alert " ++ alertClass ++ "\" role=\"alert\">" ++ message ++ "</div>"

/-- The fixed fallback message rendered by the catch branch. -/
def genericErrorMessage : String :=
  "An unexpected error occurred. Check console for details."

/-- The notification the settlement of a settings POST writes into the
area: on a decoded body, class from truthiness of result.success and
message from interpolating result.message; a null body makes
result.success throw, which the catch turns into the generic danger
banner, as does a transport or decoding failure. -/
def saveNotify (o : FetchOutcome) : String :=
  match o with
  | FetchOutcome.failed => bannerDiv "alert-danger" genericErrorMessage
  | FetchOutcome.decoded Json.null => bannerDiv "alert-danger" genericErrorMessage
  | FetchOutcome.decoded body =>
    let alertClass := if jsTruthy (body.getField "success")
      then "alert-success" else "alert-danger"
    bannerDiv alertClass (jsInterpolate (body.getField "message"))

/-- console.error count of the settlement: one on the catch path, zero
on the plain success path. -/
def saveLogs (o : FetchOutcome) : Nat :=
  match o with
  | FetchOutcome.failed => 1
  | FetchOutcome.decoded Json.null => 1
  | FetchOutcome.decoded _ => 0

/-- Atomic page events of the settings form: the synchronous dispatch
prefix of a submission, the settlement chain of a request whose
captured original button text was orig, and the firing of a scheduled
clearing timer. -/
inductive SaveEvent where
  | dispatch : SaveEvent
  | settle (orig : String) (o : FetchOutcome) : SaveEvent
  | timerFire : SaveEvent

/-- Effect of one atomic event on the page. Dispatch sets the button to
Saving... and disabled and clears the notification area (lines 48-54);
settlement writes the notification and restores the button (then or
catch branch, then the finally block); a timer fire clears the area. -/
def saveStep (p : PageState) : SaveEvent → PageState
  | SaveEvent.dispatch =>
    { button := { textContent := "Saving...", disabled := true }, area := "" }
  | SaveEvent.settle orig o =>
    { button := { textContent := orig, disabled := false }, area := saveNotify o }
  | SaveEvent.timerFire => { p with area := "" }

/-- Result of one complete non-overlapping run of saveSettings: final
page, requests issued, console.error count, and the delays of the
clearing timers scheduled by the finally block. -/
structure SaveRun where
  page : PageState
  requests : List Request
  logs : Nat
  timers : List Nat

/-- One complete run of saveSettings (lines 47-83) on form data with the
given settlement outcome: capture the original button text, apply the
dispatch step, issue the POST to /admin/save_settings with the JSON
form data, apply the settlement step, and schedule one 5000 ms clearing
timer. -/
def saveSettings (data : List (String × String)) (p : PageState)
    (o : FetchOutcome) : SaveRun :=
  let orig := p.button.textContent
  let p1 := saveStep p SaveEvent.dispatch
  let req : Request :=
    { url := "/admin/save_settings", method := "POST", payload := data }
  let p2 := saveStep p1 (SaveEvent.settle orig o)
  { page := p2, requests := [req], logs := saveLogs o, timers := [5000] }

/-- A notification area holds at most one banner when it is empty or is
exactly one banner div. -/
def atMostOneBanner (area : String) : Prop :=
  area = "" ∨ ∃ alertClass message, area = bannerDiv alertClass message

/-- The finally callback of the shared widget promise chain runs exactly
once whatever the settlement outcome. -/
theorem chainSettle_fin (o : FetchOutcome) : (chainSettle o).2.2 = 1 := by
  cases o with
  | failed => rfl
  | decoded body => cases h : resultsHandler body <;> simp [chainSettle, h]

/-- On a decoded non-null body, the success handler assigns the empty
array when the error field is truthy and the body itself otherwise. -/
theorem resultsHandler_ok (body : Json) (hb : body ≠ Json.null) :
    resultsHandler body
      = Except.ok (if jsTruthy (body.getField "error") then Json.arr [] else body) := by
  cases body <;> first | rfl | exact absurd rfl hb

/-- Concrete search state with a short query, used by witnesses. -/
def shortQueryState : SearchState :=
  { query := " ab ", results := Json.str "old", loading := true, searched := true }

/-- Concrete search state with a long query and empty results, used by
witnesses. -/
def longQueryState : SearchState :=
  { query := "abc", results := Json.arr [], loading := false, searched := false }

/-- Concrete search state with a long query and prior results, used by
witnesses. -/
def longQueryOldState : SearchState :=
  { query := "abc", results := Json.str "old", loading := false, searched := false }

/-- Claim C1: for every query string whose trimmed length is less than 3,
search() issues zero network calls, sets results to the empty list, and
sets searched to false. -/
theorem C1_short_query_no_request (s : SearchState) (o : FetchOutcome)
    (h : (jsTrim s.query).length < 3) :
    (search s o).requests = []
    ∧ (search s o).state.results = Json.arr []
    ∧ (search s o).state.searched = false := by
  simp [search, h]

/-- Witness for C1 at the query string with trimmed length 2. -/
theorem C1_short_query_no_request_w :
    (jsTrim shortQueryState.query).length < 3
    ∧ ((search shortQueryState FetchOutcome.failed).requests = []
       ∧ (search shortQueryState FetchOutcome.failed).state.results = Json.arr []
       ∧ (search shortQueryState FetchOutcome.failed).state.searched = false) :=
  ⟨by decide, C1_short_query_no_request _ _ (by decide)⟩

/-- Claim C2: for every widget (the search widget and both list widget
variants) and every request it dispatches, loading is true immediately
after dispatch and false after settlement, on both outcomes, and the
finally callback that resets loading runs exactly once per request. The
search widget dispatches exactly on trimmed length at least 3; the list
widgets are created with loading already true and dispatch in init(). -/
theorem C2_loading_lifecycle (s : SearchState) (o oa og : FetchOutcome)
    (mt lim mt2 : String) (h : 3 ≤ (jsTrim s.query).length) :
    ((searchDispatch s).loading = true
     ∧ (search s o).state.loading = false
     ∧ (search s o).finalizers = 1)
    ∧ (availableMediaData.loading = true
       ∧ (availableMediaInit mt lim availableMediaData oa).state.loading = false
       ∧ (availableMediaInit mt lim availableMediaData oa).finalizers = 1)
    ∧ (recentMediaData.loading = true
       ∧ (recentMediaInit mt2 recentMediaData og).state.loading = false
       ∧ (recentMediaInit mt2 recentMediaData og).finalizers = 1) := by
  refine ⟨⟨rfl, ?_, ?_⟩, ⟨rfl, ?_, ?_⟩, ⟨rfl, ?_, ?_⟩⟩ <;>
    simp [search, availableMediaInit, recentMediaInit, listSettle,
      Nat.not_lt.mpr h, chainSettle_fin]

/-- Witness for C2 at a query of trimmed length 3 and failed outcomes. -/
theorem C2_loading_lifecycle_w :
    3 ≤ (jsTrim longQueryState.query).length
    ∧ (((searchDispatch longQueryState).loading = true
        ∧ (search longQueryState FetchOutcome.failed).state.loading = false
        ∧ (search longQueryState FetchOutcome.failed).finalizers = 1)
       ∧ (availableMediaData.loading = true
          ∧ (availableMediaInit "movie" "5" availableMediaData
              FetchOutcome.failed).state.loading = false
          ∧ (availableMediaInit "movie" "5" availableMediaData
              FetchOutcome.failed).finalizers = 1)
       ∧ (recentMediaData.loading = true
          ∧ (recentMediaInit "tv" recentMediaData
              FetchOutcome.failed).state.loading = false
          ∧ (recentMediaInit "tv" recentMediaData
              FetchOutcome.failed).finalizers = 1)) :=
  ⟨by decide, C2_loading_lifecycle _ _ _ _ _ _ _ (by decide)⟩

/-- Claim C4: for every query string whose trimmed length is at least 3,
search() issues exactly one POST to /search_jackett whose form payload
carries the query and the fixed media_type=all field, and loading and
searched are both true immediately after dispatch. -/
theorem C4_long_query_single_post (s : SearchState) (o : FetchOutcome)
    (h : 3 ≤ (jsTrim s.query).length) :
    (search s o).requests
      = [{ url := "/search_jackett", method := "POST",
           payload := [("query", s.query), ("media_type", "all")] }]
    ∧ (searchDispatch s).loading = true
    ∧ (searchDispatch s).searched = true := by
  refine ⟨?_, rfl, rfl⟩
  simp [search, Nat.not_lt.mpr h]

/-- Witness for C4 at the query abc. -/
theorem C4_long_query_single_post_w :
    3 ≤ (jsTrim longQueryState.query).length
    ∧ ((search longQueryState FetchOutcome.failed).requests
        = [{ url := "/search_jackett", method := "POST",
             payload := [("query", longQueryState.query), ("media_type", "all")] }]
       ∧ (searchDispatch longQueryState).loading = true
       ∧ (searchDispatch longQueryState).searched = true) :=
  ⟨by decide, C4_long_query_single_post _ _ (by decide)⟩

/-- Claim C5: for every transport or decoding failure of a search widget
request, the error is logged to console.error (one log entry) and the
results are left at their pre-request value, while loading is still
reset to false. -/
theorem C5_failure_logs_and_keeps_results (s : SearchState)
    (h : 3 ≤ (jsTrim s.query).length) :
    (search s FetchOutcome.failed).state.results = s.results
    ∧ (search s FetchOutcome.failed).logs = 1
    ∧ (search s FetchOutcome.failed).state.loading = false := by
  simp [search, Nat.not_lt.mpr h, chainSettle, searchDispatch]

/-- Witness for C5 at the query abc with prior results kept. -/
theorem C5_failure_logs_and_keeps_results_w :
    3 ≤ (jsTrim longQueryOldState.query).length
    ∧ ((search longQueryOldState FetchOutcome.failed).state.results
          = longQueryOldState.results
       ∧ (search longQueryOldState FetchOutcome.failed).logs = 1
       ∧ (search longQueryOldState FetchOutcome.failed).state.loading = false) :=
  ⟨by decide, C5_failure_logs_and_keeps_results _ (by decide)⟩

/-- A decoded body carrying the error field with the falsy value of the
empty string: the body carries an error field, yet the handler keeps it
as the raw payload. -/
def falsyErrorBody : Json := Json.obj [("error", Json.str "")]

/-- Counterexample to C3 as stated: the decoded body carries an error
field, but because its value (the empty string) is falsy, the condition
data.error of the handler takes the else branch and results become the
raw payload instead of the empty list. -/
theorem C3_counterexample :
    (search longQueryState (FetchOutcome.decoded falsyErrorBody)).state.results
      ≠ Json.arr [] :=
  fun h => Json.noConfusion h

/-- Claim C3 as amended: for every decoded non-null body, results become
the empty list exactly when the error field is truthy, and the decoded
payload otherwise, so bodies whose error field is present but falsy
keep the raw payload; a null body instead takes the logged error path
(property access on null throws into the catch), logging once and
leaving results at their pre-request value. Holds for the search widget
and both list widgets. -/
theorem C3_error_policy (s : SearchState) (mt lim mt2 : String) (body : Json)
    (h : 3 ≤ (jsTrim s.query).length) :
    (body ≠ Json.null →
      (search s (FetchOutcome.decoded body)).state.results
        = (if jsTruthy (body.getField "error") then Json.arr [] else body)
      ∧ (availableMediaInit mt lim availableMediaData
          (FetchOutcome.decoded body)).state.results
        = (if jsTruthy (body.getField "error") then Json.arr [] else body)
      ∧ (recentMediaInit mt2 recentMediaData
          (FetchOutcome.decoded body)).state.results
        = (if jsTruthy (body.getField "error") then Json.arr [] else body))
    ∧ ((search s (FetchOutcome.decoded Json.null)).state.results = s.results
       ∧ (search s (FetchOutcome.decoded Json.null)).logs = 1
       ∧ (availableMediaInit mt lim availableMediaData
            (FetchOutcome.decoded Json.null)).state.results
          = availableMediaData.results
       ∧ (availableMediaInit mt lim availableMediaData
            (FetchOutcome.decoded Json.null)).logs = 1
       ∧ (recentMediaInit mt2 recentMediaData
            (FetchOutcome.decoded Json.null)).state.results
          = recentMediaData.results
       ∧ (recentMediaInit mt2 recentMediaData
            (FetchOutcome.decoded Json.null)).logs = 1) := by
  constructor
  · intro hb
    refine ⟨?_, ?_, ?_⟩ <;>
      simp [search, availableMediaInit, recentMediaInit, listSettle,
        Nat.not_lt.mpr h, chainSettle, resultsHandler_ok body hb]
  · refine ⟨?_, ?_, ?_, ?_, ?_, ?_⟩ <;>
      simp [search, searchDispatch, availableMediaInit, recentMediaInit,
        listSettle, availableMediaData, recentMediaData, Nat.not_lt.mpr h,
        chainSettle, resultsHandler]

/-- A decoded body carrying a truthy error field. -/
def truthyErrorBody : Json := Json.obj [("error", Json.str "x")]

/-- Witness for the amended C3 at a body with a truthy error field; the
null clause is witnessed at the same concrete states. -/
theorem C3_error_policy_w :
    3 ≤ (jsTrim longQueryState.query).length
    ∧ ((truthyErrorBody ≠ Json.null →
         (search longQueryState
             (FetchOutcome.decoded truthyErrorBody)).state.results
           = (if jsTruthy (truthyErrorBody.getField "error") then Json.arr []
              else truthyErrorBody)
         ∧ (availableMediaInit "movie" "5" availableMediaData
              (FetchOutcome.decoded truthyErrorBody)).state.results
           = (if jsTruthy (truthyErrorBody.getField "error") then Json.arr []
              else truthyErrorBody)
         ∧ (recentMediaInit "tv" recentMediaData
              (FetchOutcome.decoded truthyErrorBody)).state.results
           = (if jsTruthy (truthyErrorBody.getField "error") then Json.arr []
              else truthyErrorBody))
       ∧ ((search longQueryState (FetchOutcome.decoded Json.null)).state.results
            = longQueryState.results
          ∧ (search longQueryState (FetchOutcome.decoded Json.null)).logs = 1
          ∧ (availableMediaInit "movie" "5" availableMediaData
               (FetchOutcome.decoded Json.null)).state.results
             = availableMediaData.results
          ∧ (availableMediaInit "movie" "5" availableMediaData
               (FetchOutcome.decoded Json.null)).logs = 1
          ∧ (recentMediaInit "tv" recentMediaData
               (FetchOutcome.decoded Json.null)).state.results
             = recentMediaData.results
          ∧ (recentMediaInit "tv" recentMediaData
               (FetchOutcome.decoded Json.null)).logs = 1)) :=
  ⟨by decide, C3_error_policy _ _ _ _ _ (by decide)⟩

/-- The body of a settings response that reports success with the
message Saved. -/
def savedBody : Json :=
  Json.obj [("success", Json.bool true), ("message", Json.str "Saved")]

/-- Claim C6: for every settings submission whose POST resolves with the
body success true, message Saved, the notification area holds exactly
the one alert-success banner div containing Saved (given literally in
the last conjunct), the finally block schedules exactly one 5000 ms
timer, and firing that timer empties the area. -/
theorem C6_success_banner (data : List (String × String)) (p q : PageState) :
    (saveSettings data p (FetchOutcome.decoded savedBody)).page.area
      = bannerDiv "alert-success" "Saved"
    ∧ (saveSettings data p (FetchOutcome.decoded savedBody)).timers = [5000]
    ∧ (saveStep q SaveEvent.timerFire).area = ""
    ∧ bannerDiv "alert-success" "Saved"
      = "<div class=\"alert alert-success\" role=\"alert\">Saved</div>" :=
  ⟨rfl, rfl, rfl, rfl⟩

/-- Claim C7: for every settings submission whose POST rejects, the
notification area holds exactly the one alert-danger banner div with
the fixed generic fallback message, and for every outcome the submit
button ends re-enabled with its original label and one 5000 ms clearing
timer is scheduled. -/
theorem C7_failure_banner_button_restored (data : List (String × String))
    (p : PageState) (o : FetchOutcome) :
    (saveSettings data p FetchOutcome.failed).page.area
      = bannerDiv "alert-danger" genericErrorMessage
    ∧ (saveSettings data p o).page.button.textContent = p.button.textContent
    ∧ (saveSettings data p o).page.button.disabled = false
    ∧ (saveSettings data p o).timers = [5000] :=
  ⟨rfl, rfl, rfl, rfl⟩

/-- Claim C9: every settings submission clears the notification area in
its synchronous dispatch prefix, before the POST is issued, and every
atomic page event (dispatch, settlement of any request, timer fire)
leaves the area empty or holding exactly one banner div; interleavings
of overlapping submissions are sequences of these atomic events, so at
every moment at most one banner is displayed. -/
theorem C9_single_banner_invariant :
    (∀ p : PageState, (saveStep p SaveEvent.dispatch).area = "")
    ∧ ∀ (p : PageState) (e : SaveEvent), atMostOneBanner (saveStep p e).area := by
  refine ⟨fun p => rfl, fun p e => ?_⟩
  cases e with
  | dispatch => exact Or.inl rfl
  | timerFire => exact Or.inl rfl
  | settle orig o =>
    cases o with
    | failed => exact Or.inr ⟨_, _, rfl⟩
    | decoded body => cases body <;> exact Or.inr ⟨_, _, rfl⟩

/-- Writing a display value on a matched selector makes the selector
read back that value. -/
theorem querySelector_setDisplay (doc : Doc) (t v d : String)
    (h : querySelector doc t = some d) :
    querySelector (setDisplay doc t v) t = some v := by
  induction doc with
  | nil => simp [querySelector] at h
  | cons e rest ih =>
    obtain ⟨sel, dd⟩ := e
    by_cases hs : sel = t
    · simp [querySelector, setDisplay, hs]
    · simp only [querySelector, setDisplay, hs, if_false] at h ⊢
      exact ih h

/-- Writing back the display value a selector already reads leaves the
document unchanged. -/
theorem setDisplay_self (doc : Doc) (t d : String)
    (h : querySelector doc t = some d) : setDisplay doc t d = doc := by
  induction doc with
  | nil => rfl
  | cons e rest ih =>
    obtain ⟨sel, dd⟩ := e
    by_cases hs : sel = t
    · simp only [querySelector, hs, if_true, Option.some.injEq] at h
      simp [setDisplay, hs, h]
    · simp only [querySelector, hs, if_false] at h
      simp [setDisplay, hs, ih h]

/-- Two successive writes on the same selector collapse to the last
write. -/
theorem setDisplay_setDisplay (doc : Doc) (t v w : String) :
    setDisplay (setDisplay doc t v) t w = setDisplay doc t w := by
  induction doc with
  | nil => rfl
  | cons e rest ih =>
    obtain ⟨sel, dd⟩ := e
    by_cases hs : sel = t
    · simp [setDisplay, hs]
    · simp [setDisplay, hs, ih]

/-- A click on a matched toggle writes the toggled display value. -/
theorem clickToggle_found (doc : Doc) (t d : String)
    (h : querySelector doc t = some d) :
    clickToggle doc t = setDisplay doc t (toggleDisplay d) := by
  simp [clickToggle, h]

/-- A double click on a matched toggle writes the double toggle of the
original display value. -/
theorem clickToggle_clickToggle (doc : Doc) (t d : String)
    (h : querySelector doc t = some d) :
    clickToggle (clickToggle doc t) t
      = setDisplay doc t (toggleDisplay (toggleDisplay d)) := by
  rw [clickToggle_found doc t d h]
  rw [clickToggle_found _ t (toggleDisplay d) (querySelector_setDisplay doc t _ d h)]
  exact setDisplay_setDisplay doc t _ _

/-- Counterexample to C8 as stated: an element whose inline display
value starts as the empty string (the untouched inline style of a
freshly rendered element) does not get its inline display value back
after two clicks; it ends at block. -/
theorem C8_counterexample :
    clickToggle (clickToggle [("#season-1", "")] "#season-1") "#season-1"
      ≠ [("#season-1", "")] := by decide

/-- Claim C8 as amended: clicking a matched toggle twice returns the
hidden or shown status of the target (inline display equal to none or
not) to its original value; the inline display value itself is restored
exactly when it was none or block, the two values the handler writes:
any other original value ends normalized to block, a different display
value than before the first click. -/
theorem C8_double_toggle (doc : Doc) (t d : String)
    (h : querySelector doc t = some d) :
    hiddenAt (clickToggle (clickToggle doc t) t) t = hiddenAt doc t
    ∧ (d = "none" ∨ d = "block" → clickToggle (clickToggle doc t) t = doc)
    ∧ (d ≠ "none" ∧ d ≠ "block" →
        querySelector (clickToggle (clickToggle doc t) t) t = some "block"
        ∧ querySelector (clickToggle (clickToggle doc t) t) t
            ≠ querySelector doc t) := by
  have hdbl := clickToggle_clickToggle doc t d h
  have hq : querySelector (clickToggle (clickToggle doc t) t) t
      = some (toggleDisplay (toggleDisplay d)) := by
    rw [hdbl]; exact querySelector_setDisplay doc t _ d h
  refine ⟨?_, ?_, ?_⟩
  · unfold hiddenAt
    rw [hq, h]
    by_cases hd : d = "none"
    · simp [toggleDisplay, hd]
    · simp [toggleDisplay, hd]
  · rintro (hd | hd) <;> subst hd <;>
      · rw [hdbl]
        exact setDisplay_self doc t _ h
  · rintro ⟨hd1, hd2⟩
    have hb : toggleDisplay (toggleDisplay d) = "block" := by
      simp [toggleDisplay, hd1]
    refine ⟨by rw [hq, hb], ?_⟩
    rw [hq, hb, h]
    intro hcontra
    exact hd2 (Option.some.inj hcontra).symm

/-- Witness for the amended C8 on a two-element document whose target
starts with the inline display value flex, exercising the
normalized-to-block clause. -/
theorem C8_double_toggle_w :
    querySelector [("#season-1", "flex"), ("#season-2", "block")] "#season-1"
      = some "flex"
    ∧ (hiddenAt (clickToggle (clickToggle
          [("#season-1", "flex"), ("#season-2", "block")] "#season-1")
          "#season-1") "#season-1"
        = hiddenAt [("#season-1", "flex"), ("#season-2", "block")] "#season-1"
       ∧ ("flex" = "none" ∨ "flex" = "block" →
          clickToggle (clickToggle
            [("#season-1", "flex"), ("#season-2", "block")] "#season-1")
            "#season-1"
          = [("#season-1", "flex"), ("#season-2", "block")])
       ∧ ("flex" ≠ "none" ∧ "flex" ≠ "block" →
          querySelector (clickToggle (clickToggle
              [("#season-1", "flex"), ("#season-2", "block")] "#season-1")
              "#season-1") "#season-1"
            = some "block"
          ∧ querySelector (clickToggle (clickToggle
              [("#season-1", "flex"), ("#season-2", "block")] "#season-1")
              "#season-1") "#season-1"
            ≠ querySelector [("#season-1", "flex"), ("#season-2", "block")]
                "#season-1")) :=
  ⟨by decide, C8_double_toggle _ _ _ (by decide)⟩

/-- Claim C10: for every toggle whose data-target selector matches no
element, the click handler is a total no-op: the embedding is a total
function with no error branch, and the document is returned unchanged,
so no element changes state. -/
theorem C10_missing_target_noop (doc : Doc) (t : String)
    (h : querySelector doc t = none) : clickToggle doc t = doc := by
  simp [clickToggle, h]

/-- Witness for C10 on a one-element document and a selector that
matches nothing. -/
theorem C10_missing_target_noop_w :
    querySelector [("#season-1", "none")] "#season-2" = none
    ∧ clickToggle [("#season-1", "none")] "#season-2" = [("#season-1", "none")] :=
  ⟨by decide, C10_missing_target_noop _ _ (by decide)⟩
